import Mathlib

/-!
Verification development for the medusa-payment-phonepe payment-provider
adapter. The definitions below are shallow embeddings of the retry /
resilience engine, the status cache, the webhook normalizer, the
order-completion reconciler dispatch, the merchant-order-id pipeline and
the currency normalizer, translated from the TypeScript sources
(`core/phonepe-base.ts`, `api/utils/utils.ts`, `utils/get-smallest-unit.ts`).
Machine numbers are modelled with `Nat`/`Int`/`Rat`; JavaScript string
falsiness (empty string or `undefined`) is modelled with `Option String`
plus explicit emptiness checks.
-/

namespace PhonePe

/-! ## Error classification (`handlePhonePeError`) -/

/-- `PhonePeErrorData` from the source: either an indeterminate-state marker
`{indeterminate_due_to: reason}` or a structured gateway response body
(kept opaque as a string). -/
inductive PhonePeErrorData where
  | indeterminate (reason : String)
  | body (payload : String)
  deriving DecidableEq, Repr

/-- The observable fields of a caught gateway-call error that
`handlePhonePeError` inspects: `error?.code`, `error?.status`,
`error?.data`, `error?.response`. `none` models an absent field. -/
structure GatewayError where
  code : Option String
  status : Option Nat
  dataBody : Option String
  responseBody : Option String
  deriving DecidableEq, Repr

/-- `HandledErrorType` from the source:
`{retry: true} | {retry: false; data: PhonePeErrorData}`. -/
inductive HandledErrorType where
  | retryable
  | noRetry (data : PhonePeErrorData)
  deriving DecidableEq, Repr

/-- The network/connection error codes the source treats as retryable. -/
def isConnectionErrorCode (c : String) : Bool :=
  c == "ECONNREFUSED" || c == "ETIMEDOUT" || c == "ENOTFOUND"

/-- `error?.status >= 500 && error?.status < 600`; an absent status compares
false in JavaScript. -/
def isServerErrorStatus (status : Option Nat) : Bool :=
  match status with
  | some s => if 500 ≤ s ∧ s < 600 then true else false
  | none => false

/-- `handlePhonePeError` from `phonepe-base.ts`: pure classification of a
caught error into retryable / indeterminate / definitive-body outcomes. -/
def handlePhonePeError (e : GatewayError) : HandledErrorType :=
  if (e.code.map isConnectionErrorCode).getD false then
    .retryable
  else if e.status == some 429 || e.code == some "RATE_LIMIT_ERROR" then
    .retryable
  else if isServerErrorStatus e.status then
    .noRetry (.indeterminate "phonepe_server_error")
  else
    match e.dataBody with
    | some b => .noRetry (.body b)
    | none =>
      match e.responseBody with
      | some b => .noRetry (.body b)
      | none => .noRetry (.indeterminate "unknown_error")

/-- The retryable conditions named by the spec: connection refused, timed
out, DNS failure, or HTTP 429 / rate-limit code. -/
def isRetryableGatewayError (e : GatewayError) : Bool :=
  (e.code.map isConnectionErrorCode).getD false ||
    e.status == some 429 || e.code == some "RATE_LIMIT_ERROR"

theorem handlePhonePeError_of_retryable (e : GatewayError)
    (h : isRetryableGatewayError e = true) : handlePhonePeError e = .retryable := by
  unfold isRetryableGatewayError at h
  unfold handlePhonePeError
  rcases Bool.or_eq_true_iff.mp h with h1 | h2
  · rcases Bool.or_eq_true_iff.mp h1 with h3 | h4
    · rw [if_pos h3]
    · by_cases hc : (e.code.map isConnectionErrorCode).getD false = true
      · rw [if_pos hc]
      · rw [if_neg hc, if_pos (Bool.or_eq_true_iff.mpr (Or.inl h4))]
  · by_cases hc : (e.code.map isConnectionErrorCode).getD false = true
    · rw [if_pos hc]
    · rw [if_neg hc, if_pos (Bool.or_eq_true_iff.mpr (Or.inr h2))]

/-! ## Bounded retry (`executeWithRetry`, iterative variant)

The source loop keeps an attempt counter starting at 1 and throws once
`attempt >= maxRetries`; each iteration invokes the call once. We embed the
loop with the decreasing quantity `remaining = maxRetries - attempt`
(truncated subtraction), so the guard `attempt >= maxRetries` is exactly
`remaining = 0`. The embedding also counts invocations of the underlying
call. Backoff sleeps affect timing only, not results, and are omitted. -/

/-- Outcome of one invocation of the wrapped API call: resolve with a value
or reject with an error. Indexed by the attempt number so a trace of
distinct outcomes can be described. -/
inductive CallOutcome (α : Type) where
  | ok (value : α)
  | err (e : GatewayError)
  deriving DecidableEq, Repr

/-- Result of `executeWithRetry`: a returned value, returned classified
error data, or a raised wrapped terminal error (carrying the last caught
error, which `buildError` wraps). -/
inductive RetryResult (α : Type) where
  | value (v : α)
  | errorData (d : PhonePeErrorData)
  | raised (e : GatewayError)
  deriving DecidableEq, Repr

/-- The retry loop body, from attempt number `attempt` with
`remaining = maxRetries - attempt` iterations left before exhaustion.
Returns the result paired with how many times the call was invoked. -/
def executeWithRetryAux {α : Type} (call : Nat → CallOutcome α) :
    Nat → Nat → RetryResult α × Nat
  | attempt, 0 =>
    (match call attempt with
    | .ok v => (.value v, 1)
    | .err e =>
      match handlePhonePeError e with
      | .noRetry d => (.errorData d, 1)
      | .retryable => (.raised e, 1))
  | attempt, r + 1 =>
    (match call attempt with
    | .ok v => (.value v, 1)
    | .err e =>
      match handlePhonePeError e with
      | .noRetry d => (.errorData d, 1)
      | .retryable =>
        let rest := executeWithRetryAux call (attempt + 1) r
        (rest.1, rest.2 + 1))

/-- `executeWithRetry(apiCall, maxRetries)`: attempt count starts at 1. -/
def executeWithRetry {α : Type} (call : Nat → CallOutcome α) (maxRetries : Nat) :
    RetryResult α × Nat :=
  executeWithRetryAux call 1 (maxRetries - 1)

theorem executeWithRetryAux_allRetryable {α : Type} (call : Nat → CallOutcome α)
    (h : ∀ n, ∃ e, call n = .err e ∧ isRetryableGatewayError e = true) :
    ∀ remaining attempt,
      (∃ e, (executeWithRetryAux call attempt remaining).1 = .raised e) ∧
        (executeWithRetryAux call attempt remaining).2 = remaining + 1 := by
  intro remaining
  induction remaining with
  | zero =>
    intro attempt
    obtain ⟨e, hc, hr⟩ := h attempt
    simp only [executeWithRetryAux, hc, handlePhonePeError_of_retryable e hr]
    exact ⟨⟨e, rfl⟩, trivial⟩
  | succ r ih =>
    intro attempt
    obtain ⟨e, hc, hr⟩ := h attempt
    simp only [executeWithRetryAux, hc, handlePhonePeError_of_retryable e hr]
    obtain ⟨⟨e2, he2⟩, hcount⟩ := ih (attempt + 1)
    exact ⟨⟨e2, he2⟩, by simpa using hcount⟩

/-- Claim C1: if every invocation of the wrapped call fails with a
retryable error (connection refused, timed out, DNS failure, or HTTP
429 / rate limit), then `executeWithRetry` with `maxRetries = 3` invokes
the underlying call exactly 3 times in total (the attempt count starts at
1 and `maxRetries` bounds total attempts) and then raises a wrapped
terminal error. -/
theorem executeWithRetry_exhausts_at_three_attempts {α : Type}
    (call : Nat → CallOutcome α)
    (h : ∀ n, ∃ e, call n = .err e ∧ isRetryableGatewayError e = true) :
    (executeWithRetry call 3).2 = 3 ∧
      ∃ e, (executeWithRetry call 3).1 = .raised e := by
  obtain ⟨hraised, hcount⟩ := executeWithRetryAux_allRetryable call h 2 1
  exact ⟨hcount, hraised⟩

/-- Witness for C1 at the concrete always-connection-refused call. -/
theorem executeWithRetry_exhausts_at_three_attempts_witness :
    (executeWithRetry (fun _ => CallOutcome.err
        ⟨some "ECONNREFUSED", none, none, none⟩ : Nat → CallOutcome Nat) 3).2 = 3 ∧
      (executeWithRetry (fun _ => CallOutcome.err
        ⟨some "ECONNREFUSED", none, none, none⟩ : Nat → CallOutcome Nat) 3).1 =
          .raised ⟨some "ECONNREFUSED", none, none, none⟩ :=
  ⟨(executeWithRetry_exhausts_at_three_attempts _
      (fun _ => ⟨⟨some "ECONNREFUSED", none, none, none⟩, rfl, by decide⟩)).1,
    by decide⟩

theorem executeWithRetryAux_noRetry {α : Type} (call : Nat → CallOutcome α)
    (attempt remaining : Nat) (e : GatewayError) (d : PhonePeErrorData)
    (hc : call attempt = .err e) (hd : handlePhonePeError e = .noRetry d) :
    executeWithRetryAux call attempt remaining = (.errorData d, 1) := by
  cases remaining with
  | zero => simp only [executeWithRetryAux, hc, hd]
  | succ r => simp only [executeWithRetryAux, hc, hd]

theorem handlePhonePeError_serverError (e : GatewayError) (s : Nat)
    (hcode : e.code = none) (hs : e.status = some s)
    (h500 : 500 ≤ s) (h600 : s < 600) :
    handlePhonePeError e = .noRetry (.indeterminate "phonepe_server_error") := by
  unfold handlePhonePeError
  rw [hcode, hs]
  have h429 : s ≠ 429 := by omega
  simp [isServerErrorStatus, h500, h600, h429]

/-- Claim C2 (amended): when the wrapped call fails on its first invocation
with an HTTP 5xx status, `executeWithRetry` under the default
`maxRetries = 3` invokes the call exactly once, performs no retry, does
not throw, and returns the indeterminate-state marker
`{indeterminate_due_to: "phonepe_server_error"}`. -/
theorem executeWithRetry_serverError_returns_marker {α : Type}
    (call : Nat → CallOutcome α) (e : GatewayError) (s : Nat)
    (hc : call 1 = .err e) (hcode : e.code = none)
    (hs : e.status = some s) (h500 : 500 ≤ s) (h600 : s < 600) :
    executeWithRetry call 3 =
      (.errorData (.indeterminate "phonepe_server_error"), 1) :=
  executeWithRetryAux_noRetry call 1 (3 - 1) e _ hc
    (handlePhonePeError_serverError e s hcode hs h500 h600)

/-- Witness for C2 (amended) at a call that rejects with a bare HTTP 500. -/
theorem executeWithRetry_serverError_returns_marker_witness :
    executeWithRetry
        (fun _ => CallOutcome.err ⟨none, some 500, none, none⟩ :
          Nat → CallOutcome Nat) 3 =
      (.errorData (.indeterminate "phonepe_server_error"), 1) :=
  executeWithRetry_serverError_returns_marker _ _ 500 rfl rfl rfl
    (by norm_num) (by norm_num)

/-- Counterexample to claim C2 as stated: for a call failing once with HTTP
500, the value returned is the marker `"phonepe_server_error"`, not the
claimed `"gateway_server_error"`. -/
theorem executeWithRetry_serverError_marker_counterexample :
    (executeWithRetry
        (fun _ => CallOutcome.err ⟨none, some 500, none, none⟩ :
          Nat → CallOutcome Nat) 3).1 =
        RetryResult.errorData (.indeterminate "phonepe_server_error") ∧
      (executeWithRetry
        (fun _ => CallOutcome.err ⟨none, some 500, none, none⟩ :
          Nat → CallOutcome Nat) 3).1 ≠
        RetryResult.errorData (.indeterminate "gateway_server_error") := by
  decide

/-! ## Status cache with in-flight de-duplication (`getOrderStatusWithCache`)

The refactored provider keeps two instance-scoped maps: `statusCache`
(keyed by merchantOrderId, entries `{data, expiresAt}`) and
`inFlightStatusRequests` (keyed by `` `${merchantOrderId}:${withDetails}` ``,
holding the pending promise). We embed them as association lists, represent
a pending promise by a request id, and model one execution of
`getOrderStatusWithCache` up to its first suspension point as a step
function, plus the `.then/.finally` continuation as a settlement step.
`gatewayCalls` counts how many underlying `getOrderStatus` network calls
have been started. -/

def STATUS_CACHE_TTL_MS : Nat := 5000

/-- The in-flight map key `` `${merchantOrderId}:${withDetails}` ``. -/
def inFlightKey (merchantOrderId : String) (withDetails : Bool) : String :=
  merchantOrderId ++ ":" ++ (if withDetails then "true" else "false")

/-- Cache and in-flight maps of one provider instance; `σ` is the
`OrderStatusResponse` payload type (kept abstract). -/
structure StatusCacheState (σ : Type) where
  statusCache : List (String × (σ × Nat))
  inFlightStatusRequests : List (String × Nat)
  gatewayCalls : Nat
  nextRequestId : Nat

/-- What one call of `getOrderStatusWithCache` does before suspending:
serve from fresh cache, attach to an existing pending request, or start a
new underlying network call. -/
inductive FetchOutcome (σ : Type) where
  | cached (d : σ)
  | attached (requestId : Nat)
  | started (requestId : Nat)
  deriving DecidableEq

/-- The part of `getOrderStatusWithCache` after the cache check: consult
`inFlightStatusRequests`, reuse the pending request if present, otherwise
start the network call and store its handle. -/
def startOrAttach {σ : Type} (s : StatusCacheState σ) (merchantOrderId : String)
    (withDetails : Bool) : FetchOutcome σ × StatusCacheState σ :=
  match s.inFlightStatusRequests.lookup (inFlightKey merchantOrderId withDetails) with
  | some requestId => (.attached requestId, s)
  | none =>
    (.started s.nextRequestId,
      { s with
        inFlightStatusRequests :=
          (inFlightKey merchantOrderId withDetails, s.nextRequestId) ::
            s.inFlightStatusRequests,
        gatewayCalls := s.gatewayCalls + 1,
        nextRequestId := s.nextRequestId + 1 })

/-- One call of `getOrderStatusWithCache(merchantOrderId, withDetails)` at
time `now`: a fresh cache entry (`expiresAt > now`) is returned directly;
a stale entry is deleted first; then the in-flight map is consulted. -/
def getOrderStatusWithCacheStep {σ : Type} (s : StatusCacheState σ) (now : Nat)
    (merchantOrderId : String) (withDetails : Bool) :
    FetchOutcome σ × StatusCacheState σ :=
  match s.statusCache.lookup merchantOrderId with
  | some entry =>
    if now < entry.2 then (.cached entry.1, s)
    else
      startOrAttach
        { s with statusCache := s.statusCache.filter (fun p => p.1 != merchantOrderId) }
        merchantOrderId withDetails
  | none => startOrAttach s merchantOrderId withDetails

/-- How the pending network call settles: resolve with a response or
reject. -/
inductive SettleOutcome (σ : Type) where
  | success (response : σ)
  | failure
  deriving DecidableEq

/-- The `.then(...).finally(...)` continuation attached to the underlying
call: on success the cache entry is replaced wholesale with expiry
`now + STATUS_CACHE_TTL_MS`; in all cases the in-flight handle is deleted. -/
def settleStatusRequest {σ : Type} (s : StatusCacheState σ) (merchantOrderId : String)
    (withDetails : Bool) (now : Nat) (outcome : SettleOutcome σ) : StatusCacheState σ :=
  let s1 :=
    match outcome with
    | .success response =>
      { s with statusCache :=
          (merchantOrderId, (response, now + STATUS_CACHE_TTL_MS)) ::
            s.statusCache.filter (fun p => p.1 != merchantOrderId) }
    | .failure => s
  { s1 with inFlightStatusRequests :=
      s1.inFlightStatusRequests.filter (fun p => p.1 != inFlightKey merchantOrderId withDetails) }

theorem lookup_filter_bne {β : Type} (l : List (String × β)) (k : String) :
    (l.filter (fun p => p.1 != k)).lookup k = none := by
  induction l with
  | nil => rfl
  | cons hd tl ih =>
    rcases hd with ⟨a, b⟩
    by_cases h : a = k
    · rw [List.filter_cons_of_neg (by simp [h])]
      exact ih
    · rw [List.filter_cons_of_pos (by simp [bne_iff_ne, h])]
      have hk : (k == a) = false := beq_eq_false_iff_ne.mpr (Ne.symm h)
      simp only [List.lookup, hk]
      exact ih

/-- Claim C3: for a key `(merchantOrderId, withDetails)` with a pending
in-flight request and no fresh cache entry, a further
`getOrderStatusWithCache` call attaches to the same pending request,
starts no second underlying gateway call and leaves the in-flight map
unchanged; and settlement of a pending call, successful or failed, always
removes that key from the in-flight map. -/
theorem getOrderStatusWithCache_single_flight {σ : Type} (s : StatusCacheState σ)
    (now : Nat) (merchantOrderId : String) (withDetails : Bool) (requestId : Nat)
    (hpending : s.inFlightStatusRequests.lookup
      (inFlightKey merchantOrderId withDetails) = some requestId)
    (hstale : ∀ d exp, s.statusCache.lookup merchantOrderId = some (d, exp) → exp ≤ now) :
    ((getOrderStatusWithCacheStep s now merchantOrderId withDetails).1 =
        .attached requestId ∧
      (getOrderStatusWithCacheStep s now merchantOrderId withDetails).2.gatewayCalls =
        s.gatewayCalls ∧
      (getOrderStatusWithCacheStep s now merchantOrderId withDetails).2.inFlightStatusRequests =
        s.inFlightStatusRequests) ∧
    ∀ (t : StatusCacheState σ) (settleNow : Nat) (outcome : SettleOutcome σ),
      (settleStatusRequest t merchantOrderId withDetails settleNow
          outcome).inFlightStatusRequests.lookup
        (inFlightKey merchantOrderId withDetails) = none := by
  constructor
  · cases hl : s.statusCache.lookup merchantOrderId with
    | none =>
      simp only [getOrderStatusWithCacheStep, hl, startOrAttach, hpending]
      refine ⟨?_, ?_, ?_⟩ <;> trivial
    | some entry =>
      have hle : entry.2 ≤ now := hstale entry.1 entry.2 (by rw [hl])
      have hnot : ¬ now < entry.2 := by omega
      simp only [getOrderStatusWithCacheStep, hl, if_neg hnot, startOrAttach, hpending]
      refine ⟨?_, ?_, ?_⟩ <;> trivial
  · intro t settleNow outcome
    cases outcome with
    | success response => exact lookup_filter_bne _ _
    | failure => exact lookup_filter_bne _ _

/-- Witness for C3: a state with one pending request for key `m:true`,
empty cache; settlement of a failed fetch removes the handle. -/
theorem getOrderStatusWithCache_single_flight_witness :
    (getOrderStatusWithCacheStep
        (⟨[], [("m:true", 7)], 5, 8⟩ : StatusCacheState Nat) 100 "m" true).1 =
      .attached 7 ∧
    (settleStatusRequest (⟨[], [("m:true", 7)], 5, 8⟩ : StatusCacheState Nat)
        "m" true 100 SettleOutcome.failure).inFlightStatusRequests.lookup
      (inFlightKey "m" true) = none :=
  ⟨(getOrderStatusWithCache_single_flight _ 100 "m" true 7 (by decide)
      (fun d exp h => by simp [List.lookup] at h)).1.1,
    (getOrderStatusWithCache_single_flight
        (⟨[], [("m:true", 7)], 5, 8⟩ : StatusCacheState Nat) 100 "m" true 7 (by decide)
      (fun d exp h => by simp [List.lookup] at h)).2 _ 100 SettleOutcome.failure⟩

/-! ## Webhook normalizer (`constructWebhookEvent`, `mapCallbackTypeToEventType`)

The refactored `constructWebhookEvent` rejects an absent authorization
header up front, then asks the SDK validator; a null or throwing validator
lands in the catch block, which builds an error-classed canonical event
from the parsed body if the raw body is JSON, else a parse-error event.
The SDK validator and `JSON.parse` are external capabilities; they enter
the embedding as the `validation` and `parsedBody` arguments. -/

/-- JavaScript `a || b` for a possibly-absent string `a` with a string
fallback `b`: absent or empty falls through. -/
def jsOr (a : Option String) (b : String) : String :=
  match a with
  | some s => if s = "" then b else s
  | none => b

/-- The fixed `typeMap` lookup of `mapCallbackTypeToEventType`. -/
def callbackTypeMap (callbackType : String) : Option String :=
  if callbackType = "PG_ORDER_COMPLETED" then some "checkout.order.completed"
  else if callbackType = "PG_ORDER_FAILED" then some "checkout.order.failed"
  else if callbackType = "PG_REFUND_COMPLETED" then some "pg.refund.completed"
  else if callbackType = "PG_REFUND_FAILED" then some "pg.refund.failed"
  else none

/-- `typeMap[callbackType] || callbackType || "checkout.order.completed"`. -/
def mapCallbackTypeToEventType (callbackType : String) : String :=
  match callbackTypeMap callbackType with
  | some mapped => mapped
  | none => if callbackType = "" then "checkout.order.completed" else callbackType

/-- The payload fields of a validated callback that the normalizer reads. -/
structure CallbackPayload where
  merchantOrderId : Option String
  orderId : Option String
  merchantTransactionId : Option String
  deriving DecidableEq

/-- A validated callback response from the SDK (`type`, `id`, `payload`
may each be absent). -/
structure CallbackResponse where
  type : Option String
  id : Option String
  payload : Option CallbackPayload
  deriving DecidableEq

/-- What `phonepe_.validateWebhookCallback` did: returned a validated
callback, returned null (credentials missing / validation failed), or
threw. -/
inductive ValidationOutcome where
  | validated (cb : CallbackResponse)
  | unavailable
  | threw (msg : String)
  deriving DecidableEq

/-- The fields of `JSON.parse(callbackBody)` probed in the catch block
(`parsedBody.payload?.merchantOrderId`, `parsedBody.payload?.orderId`). -/
structure ParsedBody where
  payloadMerchantOrderId : Option String
  payloadOrderId : Option String
  deriving DecidableEq

/-- The canonical webhook event, restricted to the envelope fields the
claims are about (`event`, `id`, and the error/code markers of
`data.object`). -/
structure PhonePeEvent where
  event : String
  id : String
  objError : Option String
  objCode : Option String
  deriving DecidableEq

/-- `constructWebhookEvent` either returns an event or raises. -/
inductive WebhookResult where
  | ok (e : PhonePeEvent)
  | raisedError (message : String)
  deriving DecidableEq

def emptyCallbackPayload : CallbackPayload := ⟨none, none, none⟩

/-- The event built when SDK validation succeeds. -/
def validatedEvent (cb : CallbackResponse) : PhonePeEvent :=
  let payload := cb.payload.getD emptyCallbackPayload
  { event := mapCallbackTypeToEventType (cb.type.getD ""),
    id := jsOr payload.merchantOrderId
      (jsOr payload.orderId (jsOr payload.merchantTransactionId (jsOr cb.id "unknown"))),
    objError := none,
    objCode := cb.type }

/-- The catch block: probe the parsed body for ids, else the
parse-error sentinel event. -/
def webhookCatchEvent (parsedBody : Option ParsedBody) : PhonePeEvent :=
  match parsedBody with
  | some pb =>
    { event := "PAYMENT_ERROR",
      id := jsOr pb.payloadMerchantOrderId (jsOr pb.payloadOrderId "error_id"),
      objError := some "Webhook validation failed",
      objCode := some "VALIDATION_ERROR" }
  | none =>
    { event := "PAYMENT_ERROR",
      id := "error_id",
      objError := some "Failed to parse webhook data",
      objCode := some "PARSE_ERROR" }

/-- `constructWebhookEvent(authorizationHeader, callbackBody)` of the
refactored provider. `validation` is the outcome of the SDK validator on
`(authorizationHeader, callbackBody)` and `parsedBody` the outcome of
`JSON.parse(callbackBody)`. -/
def constructWebhookEvent (authorizationHeader : String)
    (validation : ValidationOutcome) (parsedBody : Option ParsedBody) : WebhookResult :=
  if authorizationHeader = "" then
    .raisedError
      "Missing authorization header for webhook validation: Authorization header is required"
  else
    match validation with
    | .validated cb => .ok (validatedEvent cb)
    | .unavailable => .ok (webhookCatchEvent parsedBody)
    | .threw _ => .ok (webhookCatchEvent parsedBody)

/-- Claim C4: with an absent (empty) authorization header,
`constructWebhookEvent` raises the missing-authorization error whatever
the validator or the body parse would have produced: no strong
validation, no legacy-unsigned fallback, and no generic parse-error event
is returned. -/
theorem constructWebhookEvent_missing_authorization
    (validation : ValidationOutcome) (parsedBody : Option ParsedBody) :
    constructWebhookEvent "" validation parsedBody =
      .raisedError
        "Missing authorization header for webhook validation: Authorization header is required" :=
  rfl

/-- Witness for C4 at a concrete validator outcome and unparseable body. -/
theorem constructWebhookEvent_missing_authorization_witness :
    constructWebhookEvent "" ValidationOutcome.unavailable none =
      .raisedError
        "Missing authorization header for webhook validation: Authorization header is required" :=
  constructWebhookEvent_missing_authorization ValidationOutcome.unavailable none

/-- Claim C7: the four vendor callback types map to their canonical dotted
event types, every other non-empty type passes through unchanged, and an
entirely absent (empty) type defaults to `"checkout.order.completed"`. -/
theorem mapCallbackTypeToEventType_spec :
    mapCallbackTypeToEventType "PG_ORDER_COMPLETED" = "checkout.order.completed" ∧
    mapCallbackTypeToEventType "PG_ORDER_FAILED" = "checkout.order.failed" ∧
    mapCallbackTypeToEventType "PG_REFUND_COMPLETED" = "pg.refund.completed" ∧
    mapCallbackTypeToEventType "PG_REFUND_FAILED" = "pg.refund.failed" ∧
    mapCallbackTypeToEventType "" = "checkout.order.completed" ∧
    ∀ t : String,
      t ∉ ["PG_ORDER_COMPLETED", "PG_ORDER_FAILED", "PG_REFUND_COMPLETED",
        "PG_REFUND_FAILED"] →
      t ≠ "" → mapCallbackTypeToEventType t = t := by
  refine ⟨rfl, rfl, rfl, rfl, rfl, ?_⟩
  intro t hmem hne
  simp only [List.mem_cons, List.not_mem_nil, or_false, not_or] at hmem
  obtain ⟨h1, h2, h3, h4⟩ := hmem
  simp [mapCallbackTypeToEventType, callbackTypeMap, h1, h2, h3, h4, hne]

/-- Witness for C7 at an unknown non-empty vendor code. -/
theorem mapCallbackTypeToEventType_spec_witness :
    mapCallbackTypeToEventType "PG_SUBSCRIPTION_PAUSED" = "PG_SUBSCRIPTION_PAUSED" :=
  mapCallbackTypeToEventType_spec.2.2.2.2.2 "PG_SUBSCRIPTION_PAUSED"
    (by decide) (by decide)

/-- Claim C8: with an authorization header present, a failing (null or
throwing) validator, and a raw body that is not parseable JSON,
`constructWebhookEvent` does not raise; it returns the error-classed
canonical event with `eventType = PAYMENT_ERROR` and `id = "error_id"`. -/
theorem constructWebhookEvent_parse_error_event (authorizationHeader : String)
    (validation : ValidationOutcome)
    (hauth : authorizationHeader ≠ "")
    (hval : validation = .unavailable ∨ ∃ m, validation = .threw m) :
    constructWebhookEvent authorizationHeader validation none =
      .ok { event := "PAYMENT_ERROR", id := "error_id",
            objError := some "Failed to parse webhook data",
            objCode := some "PARSE_ERROR" } := by
  unfold constructWebhookEvent
  rw [if_neg hauth]
  rcases hval with h | ⟨m, h⟩ <;> subst h <;> rfl

/-- Witness for C8: bearer header, validator reports failure, body not
JSON. -/
theorem constructWebhookEvent_parse_error_event_witness :
    constructWebhookEvent "Bearer token" ValidationOutcome.unavailable none =
      .ok { event := "PAYMENT_ERROR", id := "error_id",
            objError := some "Failed to parse webhook data",
            objCode := some "PARSE_ERROR" } :=
  constructWebhookEvent_parse_error_event "Bearer token" ValidationOutcome.unavailable
    (by decide) (Or.inl rfl)

/-! ## Order-completion reconciler dispatch (`handlePaymentHook`)

`handlePaymentHook` in `api/utils/utils.ts` resolves the merchant order id
with JavaScript falsy-or over `paymentIntent.data?.merchantOrderId` and
`...merchantTransactionId`, derives the cart id (which only feeds the
completion side effect and logging), resolves the event type as
`event.event || event.type || paymentIntent.code`, and dispatches.
The transactional completion `onPaymentIntentSucceeded` is an external
collaborator; whether it throws enters as `completionThrows`. -/

/-- JavaScript string truthiness: `undefined` and `""` are falsy. -/
def jsTruthy (a : Option String) : Option String :=
  match a with
  | some s => if s = "" then none else some s
  | none => none

/-- JavaScript `a || b` on possibly-absent strings, keeping absence. -/
def jsOrOpt (a b : Option String) : Option String :=
  match jsTruthy a with
  | some s => some s
  | none => b

/-- The inputs of one `handlePaymentHook` invocation that determine its
status code. -/
structure HookEventInput where
  dataMerchantOrderId : Option String
  dataMerchantTransactionId : Option String
  eventEvent : Option String
  eventType : Option String
  intentCode : Option String
  completionThrows : Bool
  deriving DecidableEq

/-- `paymentIntent.data?.merchantOrderId || paymentIntent.data?.merchantTransactionId`,
normalized to `none` when falsy. -/
def resolvedMerchantOrderId (inp : HookEventInput) : Option String :=
  jsTruthy (jsOrOpt inp.dataMerchantOrderId inp.dataMerchantTransactionId)

/-- `event.event || event.type || paymentIntent.code`, normalized to
`none` when falsy (a falsy event type matches no switch case). -/
def resolvedEventType (inp : HookEventInput) : Option String :=
  jsTruthy (jsOrOpt (jsOrOpt inp.eventEvent inp.eventType) inp.intentCode)

def successEventTypes : List String :=
  ["checkout.order.completed", "PAYMENT_SUCCESS", "SUCCESS"]

def failureEventTypes : List String :=
  ["checkout.order.failed", "PAYMENT_ERROR", "PAYMENT_DECLINED"]

def refundEventTypes : List String :=
  ["pg.refund.completed", "pg.refund.failed"]

/-- `handlePaymentHook`: the returned `statusCode`. -/
def handlePaymentHook (inp : HookEventInput) : Nat :=
  match resolvedMerchantOrderId inp with
  | none => 400
  | some _ =>
    match resolvedEventType inp with
    | some eventType =>
      if eventType ∈ successEventTypes then
        if inp.completionThrows then 409 else 200
      else if eventType ∈ failureEventTypes then 200
      else if eventType ∈ refundEventTypes then 200
      else 204
    | none => 204

/-- Claim C6: `handlePaymentHook` returns 400 when neither
`merchantOrderId` nor `merchantTransactionId` is carried by the payload;
409 when the completion attempt for a success-class event throws; 200 for
handled success-, failure- and refund-class events; and 204 for an
unrecognized event type. -/
theorem handlePaymentHook_status_codes :
    (∀ inp : HookEventInput, resolvedMerchantOrderId inp = none →
      handlePaymentHook inp = 400) ∧
    (∀ (inp : HookEventInput) (m t : String), resolvedMerchantOrderId inp = some m →
      resolvedEventType inp = some t → t ∈ successEventTypes →
      inp.completionThrows = true → handlePaymentHook inp = 409) ∧
    (∀ (inp : HookEventInput) (m t : String), resolvedMerchantOrderId inp = some m →
      resolvedEventType inp = some t → t ∈ successEventTypes →
      inp.completionThrows = false → handlePaymentHook inp = 200) ∧
    (∀ (inp : HookEventInput) (m t : String), resolvedMerchantOrderId inp = some m →
      resolvedEventType inp = some t →
      t ∈ failureEventTypes ∨ t ∈ refundEventTypes → handlePaymentHook inp = 200) ∧
    (∀ (inp : HookEventInput) (m t : String), resolvedMerchantOrderId inp = some m →
      resolvedEventType inp = some t → t ∉ successEventTypes →
      t ∉ failureEventTypes → t ∉ refundEventTypes → handlePaymentHook inp = 204) ∧
    (∀ (inp : HookEventInput) (m : String), resolvedMerchantOrderId inp = some m →
      resolvedEventType inp = none → handlePaymentHook inp = 204) := by
  refine ⟨?_, ?_, ?_, ?_, ?_, ?_⟩
  · intro inp h
    simp only [handlePaymentHook, h]
  · intro inp m t hm ht hsucc hthrow
    simp only [handlePaymentHook, hm, ht, if_pos hsucc, hthrow, if_true]
  · intro inp m t hm ht hsucc hthrow
    simp only [handlePaymentHook, hm, ht, if_pos hsucc, hthrow]
    norm_num
  · intro inp m t hm ht hcase
    have hnsucc : t ∉ successEventTypes := by
      rcases hcase with hf | hr
      · simp only [failureEventTypes, List.mem_cons, List.not_mem_nil, or_false] at hf
        rcases hf with rfl | rfl | rfl <;> decide
      · simp only [refundEventTypes, List.mem_cons, List.not_mem_nil, or_false] at hr
        rcases hr with rfl | rfl <;> decide
    simp only [handlePaymentHook, hm, ht, if_neg hnsucc]
    rcases hcase with hf | hr
    · rw [if_pos hf]
    · have hnf : t ∉ failureEventTypes := by
        simp only [refundEventTypes, List.mem_cons, List.not_mem_nil, or_false] at hr
        rcases hr with rfl | rfl <;> decide
      rw [if_neg hnf, if_pos hr]
  · intro inp m t hm ht h1 h2 h3
    simp only [handlePaymentHook, hm, ht, if_neg h1, if_neg h2, if_neg h3]
  · intro inp m hm ht
    simp only [handlePaymentHook, hm, ht]

/-- Witness for C6 covering each status code at concrete webhook inputs. -/
theorem handlePaymentHook_status_codes_witness :
    handlePaymentHook ⟨none, none, some "checkout.order.completed", none, none, false⟩ = 400 ∧
    handlePaymentHook ⟨some "cart_1_1", none, some "checkout.order.completed", none, none, true⟩ = 409 ∧
    handlePaymentHook ⟨some "cart_1_1", none, some "checkout.order.completed", none, none, false⟩ = 200 ∧
    handlePaymentHook ⟨some "cart_1_1", none, some "checkout.order.failed", none, none, false⟩ = 200 ∧
    handlePaymentHook ⟨some "cart_1_1", none, some "pg.refund.completed", none, none, false⟩ = 200 ∧
    handlePaymentHook ⟨some "cart_1_1", none, some "PG_SOMETHING_ELSE", none, none, false⟩ = 204 :=
  ⟨handlePaymentHook_status_codes.1 _ (by decide),
   handlePaymentHook_status_codes.2.1 _ "cart_1_1" "checkout.order.completed"
     (by decide) (by decide) (by decide) rfl,
   handlePaymentHook_status_codes.2.2.1 _ "cart_1_1" "checkout.order.completed"
     (by decide) (by decide) (by decide) rfl,
   handlePaymentHook_status_codes.2.2.2.1 _ "cart_1_1" "checkout.order.failed"
     (by decide) (by decide) (Or.inl (by decide)),
   handlePaymentHook_status_codes.2.2.2.1 _ "cart_1_1" "pg.refund.completed"
     (by decide) (by decide) (Or.inr (by decide)),
   handlePaymentHook_status_codes.2.2.2.2.1 _ "cart_1_1" "PG_SOMETHING_ELSE"
     (by decide) (by decide) (by decide) (by decide) (by decide)⟩

/-! ## Merchant order id creation and the reconciler's cart-id derivation

JavaScript strings are modelled at character level via `String.data`;
`slice(0, n)` is `List.take n`, `replaceAll(/[^...]/g, "")` is a filter,
and `trim()` drops whitespace at both ends. -/

/-- Membership in the merchant-order-id charset `[A-Za-z0-9._-]`. -/
def moidCharOk (c : Char) : Bool :=
  c.isAlpha || c.isDigit || c == '.' || c == '_' || c == '-'

/-- `s.slice(0, n)`. -/
def strTake (n : Nat) (s : String) : String := ⟨s.data.take n⟩

/-- Character filtering, as done by `replaceAll` with a negated character
class and empty replacement. -/
def strFilter (p : Char → Bool) (s : String) : String := ⟨s.data.filter p⟩

/-- `s.trim()`: strip leading and trailing whitespace. -/
def strTrim (s : String) : String :=
  ⟨((s.data.dropWhile Char.isWhitespace).reverse.dropWhile Char.isWhitespace).reverse⟩

/-- `trimmed.replaceAll(/[^A-Za-z0-9._-]/g, "").slice(0, 20)`. -/
def sanitizeResourceId (rid : String) : String :=
  strTake 20 (strFilter moidCharOk (strTrim rid))

/-- `normalizeResourceId` of the refactored provider: a falsy input, a
whitespace-only input, or an input with no charset characters left yields
`undefined`; otherwise the sanitized, 20-char-capped remainder. -/
def normalizeResourceId (resourceId : Option String) : Option String :=
  match resourceId with
  | none => none
  | some rid =>
    if rid = "" then none
    else if strTrim rid = "" then none
    else if sanitizeResourceId rid = "" then none
    else some (sanitizeResourceId rid)

/-- `createMerchantOrderId`: without a resource id, the 16-character uuid
segment alone (`randomUUID()` with dashes removed, sliced to 16); with
one, `` `${resourceId.slice(0,20)}-${uuidSegment}` `` truncated to 50
characters. -/
def createMerchantOrderId (uuidSegment : String) (resourceId : Option String) : String :=
  match resourceId with
  | none => uuidSegment
  | some rid =>
    let candidate := strTake 20 rid ++ "-" ++ uuidSegment
    if candidate.length > 50 then strTake 50 candidate else candidate

/-- The merchant order id minted by the refactored `initiatePayment`:
`createMerchantOrderId(normalizeResourceId(data?.resource_id || data?.id))`. -/
def initiateMerchantOrderId (uuidSegment : String) (rawResourceId : Option String) : String :=
  createMerchantOrderId uuidSegment (normalizeResourceId rawResourceId)

/-- The legacy `initiatePayment` scheme:
`` `${resourceId}_${PhonePeBase.sequenceCount}` ``. -/
def legacyMerchantOrderId (resourceId : String) (sequenceCount : Nat) : String :=
  resourceId ++ "_" ++ toString sequenceCount

/-- JavaScript `s.split(sep)` for a one-character separator, at character
level (splitting on every occurrence; `"".split(sep)` is `[""]`). -/
def splitOnChar (sep : Char) : List Char → List (List Char)
  | [] => [[]]
  | c :: rest =>
    if c = sep then [] :: splitOnChar sep rest
    else
      match splitOnChar sep rest with
      | [] => [[c]]
      | seg :: segs => (c :: seg) :: segs

/-- The reconciler's cart-id derivation in `handlePaymentHook`: split the
merchant order id on every underscore and rejoin the first two segments;
a missing second segment renders as the JavaScript string `"undefined"`. -/
def deriveCartId (merchantOrderId : String) : String :=
  let cartIdParts := (splitOnChar '_' merchantOrderId.data).map String.mk
  cartIdParts.getD 0 "" ++ "_" ++ cartIdParts.getD 1 "undefined"

/-- Claim C5 (evaluation at the failing input): for the original cart id
`"cart_1"`, the legacy `<cartId>_<sequence>` creation round-trips through
the reconciler's derivation, but the refactored `createMerchantOrderId`
joins the sanitized resource id and the uuid segment with `"-"`, so the
derivation yields the entire merchant order id, not the original cart
id. -/
theorem createMerchantOrderId_breaks_cartId_roundtrip :
    deriveCartId (legacyMerchantOrderId "cart_1" 7) = "cart_1" ∧
    initiateMerchantOrderId "0123456789abcdef" (some "cart_1") =
      "cart_1-0123456789abcdef" ∧
    deriveCartId (initiateMerchantOrderId "0123456789abcdef" (some "cart_1")) ≠
      "cart_1" := by
  refine ⟨by decide, by decide, by decide⟩

theorem strData_append (s t : String) : (s ++ t).data = s.data ++ t.data := by
  cases s
  cases t
  rfl

theorem normalizeResourceId_spec (raw : Option String) (rid : String)
    (h : normalizeResourceId raw = some rid) :
    rid.data ≠ [] ∧ rid.data.length ≤ 20 ∧ rid.data.all moidCharOk = true := by
  cases raw with
  | none => exact absurd h (by simp [normalizeResourceId])
  | some s =>
    simp only [normalizeResourceId] at h
    split_ifs at h with h0 h1 h2
    injection h with h
    subst h
    refine ⟨?_, ?_, ?_⟩
    · intro hd
      exact h2 (by simpa [sanitizeResourceId] using congrArg String.mk hd)
    · simp [sanitizeResourceId, strTake, List.length_take]
    · refine List.all_eq_true.mpr ?_
      intro c hc
      have hmem : c ∈ (strFilter moidCharOk (strTrim s)).data :=
        List.mem_of_mem_take hc
      exact (List.mem_filter.mp hmem).2

/-- Claim C10: every merchant order id minted by the refactored
`initiatePayment`, for any raw resource id input, is non-empty, at most
50 characters long, and drawn from the charset `[A-Za-z0-9._-]` — given
that the uuid segment supplied by `randomUUID()` is 16 characters from
that charset. -/
theorem initiateMerchantOrderId_invariant (uuidSegment : String)
    (rawResourceId : Option String)
    (hlen : uuidSegment.length = 16)
    (hchars : uuidSegment.data.all moidCharOk = true) :
    initiateMerchantOrderId uuidSegment rawResourceId ≠ "" ∧
    (initiateMerchantOrderId uuidSegment rawResourceId).length ≤ 50 ∧
    (initiateMerchantOrderId uuidSegment rawResourceId).data.all moidCharOk = true := by
  unfold initiateMerchantOrderId
  cases hn : normalizeResourceId rawResourceId with
  | none =>
    simp only [createMerchantOrderId]
    refine ⟨?_, ?_, hchars⟩
    · intro he
      rw [he] at hlen
      exact absurd hlen (by decide)
    · show uuidSegment.length ≤ 50
      omega
  | some rid =>
    obtain ⟨hne, hlen20, hcharsR⟩ := normalizeResourceId_spec rawResourceId rid hn
    have hulen : uuidSegment.data.length = 16 := hlen
    have hdash : ("-" : String).data = ['-'] := rfl
    have hdata : (strTake 20 rid ++ "-" ++ uuidSegment).data =
        rid.data.take 20 ++ ('-' :: uuidSegment.data) := by
      rw [strData_append, strData_append, hdash]
      show rid.data.take 20 ++ ['-'] ++ uuidSegment.data = _
      simp [List.append_assoc]
    have hclen : (strTake 20 rid ++ "-" ++ uuidSegment).length ≤ 37 := by
      show (strTake 20 rid ++ "-" ++ uuidSegment).data.length ≤ 37
      rw [hdata]
      have h20 : (rid.data.take 20).length ≤ 20 := by
        rw [List.length_take]
        exact min_le_left _ _
      simp only [List.length_append, List.length_cons, hulen]
      omega
    have hnot : ¬ (strTake 20 rid ++ "-" ++ uuidSegment).length > 50 := by omega
    simp only [createMerchantOrderId, if_neg hnot]
    refine ⟨?_, by omega, ?_⟩
    · intro he
      have : (strTake 20 rid ++ "-" ++ uuidSegment).data = [] :=
        congrArg String.data he
      rw [hdata] at this
      exact absurd this (by simp)
    · refine List.all_eq_true.mpr ?_
      intro c hc
      rw [hdata] at hc
      rcases List.mem_append.mp hc with hcm | hcm
      · exact List.all_eq_true.mp hcharsR c (List.mem_of_mem_take hcm)
      · rcases List.mem_cons.mp hcm with rfl | hcm
        · decide
        · exact List.all_eq_true.mp hchars c hcm

/-- Witness for C10: a raw resource id full of characters outside the
charset still yields a valid merchant order id. -/
theorem initiateMerchantOrderId_invariant_witness :
    initiateMerchantOrderId "0123456789abcdef" (some "cart id #42!") ≠ "" ∧
    (initiateMerchantOrderId "0123456789abcdef" (some "cart id #42!")).length ≤ 50 ∧
    (initiateMerchantOrderId "0123456789abcdef" (some "cart id #42!")).data.all
      moidCharOk = true :=
  initiateMerchantOrderId_invariant "0123456789abcdef" (some "cart id #42!")
    (by decide) (by decide)

/-! ## Currency normalizer (`get-smallest-unit.ts`)

Amount arithmetic is modelled exactly over the rationals (the source
routes multiplication and division through the host platform's BigNumber
utilities); `Math.round` is JavaScript half-up rounding
`⌊x + 1/2⌋`, `Math.ceil` and `Math.floor` are the integer ceiling and
floor. `toUpperCase` is mapped over the characters. -/

/-- `CURRENCY_POWER_MAP`: ISO currency code to decimal exponent. -/
def CURRENCY_POWER_MAP : List (String × Nat) :=
  [("BIF", 0), ("CLP", 0), ("DJF", 0), ("GNF", 0), ("JPY", 0), ("KMF", 0),
   ("KRW", 0), ("MGA", 0), ("PYG", 0), ("RWF", 0), ("UGX", 0), ("VND", 0),
   ("VUV", 0), ("XAF", 0), ("XOF", 0), ("XPF", 0),
   ("BHD", 3), ("IQD", 3), ("JOD", 3), ("KWD", 3), ("OMR", 3), ("TND", 3)]

/-- `currency.toUpperCase()` at character level. -/
def strToUpper (s : String) : String := ⟨s.data.map Char.toUpper⟩

/-- `CURRENCY_POWER_MAP.get(currencyUpper) ?? 2`. -/
def getCurrencyPower (currency : String) : Nat :=
  (CURRENCY_POWER_MAP.lookup (strToUpper currency)).getD 2

/-- `Math.pow(10, power)` — an integer, embedded into the rationals. -/
def getCurrencyMultiplier (currency : String) : ℚ :=
  ((10 ^ getCurrencyPower currency : ℕ) : ℚ)

/-- JavaScript `Math.round` (round half up). -/
def mathRound (q : ℚ) : ℤ := ⌊q + 1 / 2⌋

/-- `getSmallestUnit(amount, currency)`: round to the currency precision,
scale to minor units, round 3-decimal currencies up to the nearest ten,
floor to an integer. -/
def getSmallestUnit (amount : ℚ) (currency : String) : ℤ :=
  let multiplier := getCurrencyMultiplier currency
  let amount2 : ℚ := ((mathRound (amount * multiplier) : ℤ) : ℚ) / multiplier
  let numeric : ℚ := amount2 * multiplier
  let numeric2 : ℚ :=
    if multiplier = 1000 then ((⌈numeric / 10⌉ * 10 : ℤ) : ℚ) else numeric
  ⌊numeric2⌋

/-- `getAmountFromSmallestUnit(amount, currency)`: divide by the
multiplier, no special-casing. -/
def getAmountFromSmallestUnit (amount : ℤ) (currency : String) : ℚ :=
  (amount : ℚ) / getCurrencyMultiplier currency

theorem getCurrencyMultiplier_pos (ccy : String) :
    (0 : ℚ) < getCurrencyMultiplier ccy := by
  unfold getCurrencyMultiplier
  exact_mod_cast Nat.pos_pow_of_pos _ (by norm_num)

theorem getCurrencyMultiplier_eq_1000_iff (ccy : String) :
    getCurrencyMultiplier ccy = 1000 ↔ getCurrencyPower ccy = 3 := by
  unfold getCurrencyMultiplier
  constructor
  · intro h
    have hnat : (10 : ℕ) ^ getCurrencyPower ccy = 10 ^ 3 := by
      have h10 : (10 : ℕ) ^ getCurrencyPower ccy = 1000 := by exact_mod_cast h
      omega
    exact Nat.pow_right_injective (by norm_num) hnat
  · intro h
    rw [h]
    norm_num

/-- Claim C9: for every non-negative amount `x` and currency code, the
round trip `getAmountFromSmallestUnit (getSmallestUnit x ccy) ccy`
recovers `x` within one unit of the currency's precision whenever the
currency is not a 3-decimal one; for 3-decimal currencies
(multiplier 1000) the minted minor-unit amount is always a multiple of
10. -/
theorem currency_minor_unit_roundtrip (x : ℚ) (ccy : String) (hx : 0 ≤ x) :
    (getCurrencyPower ccy ≠ 3 →
      |getAmountFromSmallestUnit (getSmallestUnit x ccy) ccy - x| ≤
        1 / getCurrencyMultiplier ccy) ∧
    (getCurrencyPower ccy = 3 → (10 : ℤ) ∣ getSmallestUnit x ccy) := by
  have hmpos := getCurrencyMultiplier_pos ccy
  have hmne : getCurrencyMultiplier ccy ≠ 0 := ne_of_gt hmpos
  constructor
  · intro hp3
    have hm1000 : getCurrencyMultiplier ccy ≠ 1000 := by
      intro h
      exact hp3 ((getCurrencyMultiplier_eq_1000_iff ccy).mp h)
    have hr : getSmallestUnit x ccy = mathRound (x * getCurrencyMultiplier ccy) := by
      simp only [getSmallestUnit, if_neg hm1000]
      rw [div_mul_cancel₀ _ hmne]
      exact Int.floor_intCast _
    have hb1 : ((mathRound (x * getCurrencyMultiplier ccy) : ℤ) : ℚ) ≤
        x * getCurrencyMultiplier ccy + 1 / 2 := Int.floor_le _
    have hb2 : x * getCurrencyMultiplier ccy + 1 / 2 <
        ((mathRound (x * getCurrencyMultiplier ccy) : ℤ) : ℚ) + 1 :=
      Int.lt_floor_add_one _
    have key : getAmountFromSmallestUnit (getSmallestUnit x ccy) ccy - x =
        (((mathRound (x * getCurrencyMultiplier ccy) : ℤ) : ℚ) -
          x * getCurrencyMultiplier ccy) / getCurrencyMultiplier ccy := by
      unfold getAmountFromSmallestUnit
      rw [hr]
      field_simp
      ring
    rw [key, abs_div, abs_of_pos hmpos]
    have habs : |((mathRound (x * getCurrencyMultiplier ccy) : ℤ) : ℚ) -
        x * getCurrencyMultiplier ccy| ≤ 1 / 2 :=
      abs_le.mpr ⟨by linarith, by linarith⟩
    have hstep : |((mathRound (x * getCurrencyMultiplier ccy) : ℤ) : ℚ) -
        x * getCurrencyMultiplier ccy| / getCurrencyMultiplier ccy ≤
        (1 / 2) / getCurrencyMultiplier ccy := by gcongr
    have hstep2 : (1 / 2 : ℚ) / getCurrencyMultiplier ccy ≤
        1 / getCurrencyMultiplier ccy := by
      gcongr
      norm_num
    linarith
  · intro hp3
    have hm1000 : getCurrencyMultiplier ccy = 1000 :=
      (getCurrencyMultiplier_eq_1000_iff ccy).mpr hp3
    have : getSmallestUnit x ccy =
        ⌈((mathRound (x * getCurrencyMultiplier ccy) : ℤ) : ℚ) /
            getCurrencyMultiplier ccy * getCurrencyMultiplier ccy / 10⌉ * 10 := by
      simp only [getSmallestUnit, if_pos hm1000]
      exact Int.floor_intCast _
    rw [this]
    exact dvd_mul_left 10 _

/-- Witness for C9: the 2-decimal default currency round-trips `1.5`
within `0.01`, and the 3-decimal `"KWD"` yields a multiple of 10 minor
units. -/
theorem currency_minor_unit_roundtrip_witness :
    |getAmountFromSmallestUnit (getSmallestUnit (3 / 2) "USD") "USD" - 3 / 2| ≤
      1 / getCurrencyMultiplier "USD" ∧
    (10 : ℤ) ∣ getSmallestUnit (123 / 1000) "KWD" :=
  ⟨(currency_minor_unit_roundtrip (3 / 2) "USD" (by norm_num)).1 (by decide),
   (currency_minor_unit_roundtrip (123 / 1000) "KWD" (by norm_num)).2 (by decide)⟩

end PhonePe
